import Mathlib

/-!
Shallow embedding of the MCP health-check subsystem of `my-agent-too`:
`backend/app/services/mcp_health.py` (check_server_health, _read_response,
_kill) and the registry update path of
`backend/app/services/mcp_registry.py` (get_server, update_server_health),
with the data model of `backend/app/models/mcp.py`.

The Python code is asynchronous and effectful; we embed one call of
`check_server_health` as a pure function of an oracle (`World`) that fixes
the outcome of every external interaction (process spawn, pipe drains, the
two response reads, the elapsed-time reading), and the call returns both
its `MCPHealthResult` and the list of side effects it performed (`Eff`):
the spawn, each `_kill`, each `_read_response` call with the timeout it was
given, and each `update_server_health` call with its arguments.  JSON
values parsed by `json.loads` are modelled by the inductive `Json`, and the
dynamically-typed Python operations used on them (`truthiness`, `in`,
subscript, `dict.get`, iteration) are modelled with their exact Python
semantics, including the exceptions they raise on ill-typed operands.
Exceptions are the `PyExc` type; `json.loads` / `bytes.decode` outcomes for
a read line are the `LineRead` oracle type.
-/

/-- JSON values as returned by `json.loads`.  Numbers are modelled as
integers (no claim depends on float arithmetic).  A parsed Python dict has
unique keys (on duplicate keys `json.loads` keeps the last), so `obj`
field lists are intended key-unique and lookups use the first match. -/
inductive Json where
| null
| bool (b : Bool)
| num (n : Int)
| str (s : String)
| arr (elems : List Json)
| obj (fields : List (String × Json))

/-- Python exceptions that the embedded code can raise or observe. -/
inductive PyExc where
| typeError
| attributeError
| keyError
| unicodeDecodeError
| validationError
| oserror (msg : String)
| other (msg : String)
deriving DecidableEq

/-- Model of Python `str(exc)` for the exceptions we track; for the
dynamic-typing errors we use the exception class name as a representative
message. -/
def PyExc.message : PyExc → String
| .typeError => "TypeError"
| .attributeError => "AttributeError"
| .keyError => "KeyError"
| .unicodeDecodeError => "UnicodeDecodeError"
| .validationError => "ValidationError"
| .oserror m => m
| .other m => m

/-- Python truthiness of a `json.loads` value (`bool(x)`). -/
def Json.truthy : Json → Bool
| .null => false
| .bool b => b
| .num n => n != 0
| .str s => s != ""
| .arr xs => !xs.isEmpty
| .obj fs => !fs.isEmpty

/-- Whether `sub` occurs as a substring of `s` (Python `sub in s` for
strings). -/
def strContainsSub (s sub : String) : Bool :=
  sub == "" || (s.splitOn sub).length ≥ 2

/-- Python membership `k in j` for a string `k`: key lookup on dicts,
element equality on lists, substring test on strings; `TypeError` on the
remaining (non-iterable) values. -/
def Json.mem (k : String) : Json → Except PyExc Bool
| .obj fs => .ok (fs.any (fun p => p.1 == k))
| .arr xs =>
  .ok (xs.any (fun x => match x with | .str s => s == k | _ => false))
| .str s => .ok (strContainsSub s k)
| .null => .error .typeError
| .bool _ => .error .typeError
| .num _ => .error .typeError

/-- Python subscript `j[k]` for a string key: dict lookup (`KeyError` when
absent), `TypeError` on every non-dict value. -/
def Json.subscript (j : Json) (k : String) : Except PyExc Json :=
  match j with
  | .obj fs =>
    match fs.find? (fun p => p.1 == k) with
    | some p => .ok p.2
    | none => .error .keyError
  | _ => .error .typeError

/-- Pure dict lookup with default, defined on `obj` values. -/
def Json.objGetD (j : Json) (k : String) (d : Json) : Json :=
  match j with
  | .obj fs =>
    match fs.find? (fun p => p.1 == k) with
    | some p => p.2
    | none => d
  | _ => d

/-- Python `j.get(k, d)`: defined on dicts, `AttributeError` on every other
`json.loads` value. -/
def Json.dictGet (j : Json) (k : String) (d : Json) : Except PyExc Json :=
  match j with
  | .obj fs => .ok (Json.objGetD (.obj fs) k d)
  | _ => .error .attributeError

/-- Python iteration `for t in j`: lists yield elements, strings yield
their one-character substrings, dicts yield their keys (insertion order),
everything else raises `TypeError`. -/
def Json.pyIter : Json → Except PyExc (List Json)
| .arr xs => .ok xs
| .str s => .ok (s.toList.map (fun c => .str (String.mk [c])))
| .obj fs => .ok (fs.map (fun p => Json.str p.1))
| .null => .error .typeError
| .bool _ => .error .typeError
| .num _ => .error .typeError

/-- Whether a `json.loads` value is a dict. -/
def Json.isObj : Json → Bool
| .obj _ => true
| _ => false

/-- Whether a `json.loads` value is a string. -/
def Json.isStr : Json → Bool
| .str _ => true
| _ => false

/-- Underlying string of a string value (empty for any other value; only
used beneath an `isStr` guard). -/
def jsonAsStr : Json → String
| .str s => s
| _ => ""

/-- Underlying field list of a dict value (empty for any other value; only
used beneath an `isObj` guard). -/
def jsonAsObj : Json → List (String × Json)
| .obj fs => fs
| _ => []

mutual

/-- Model of the Python `f"...{value}"` rendering (repr) of a `json.loads`
value, used by the `Initialize failed: {init_resp}` message (string
escaping inside rendered strings is not modelled). -/
def pyRepr : Json → String
| .null => "None"
| .bool true => "True"
| .bool false => "False"
| .num n => toString n
| .str s => "\x27" ++ s ++ "\x27"
| .arr xs => "[" ++ pyReprList xs ++ "]"
| .obj fs => "\x7b" ++ pyReprFields fs ++ "\x7d"

/-- Comma-separated repr of list elements. -/
def pyReprList : List Json → String
| [] => ""
| [x] => pyRepr x
| x :: xs => pyRepr x ++ ", " ++ pyReprList xs

/-- Comma-separated repr of dict entries. -/
def pyReprFields : List (String × Json) → String
| [] => ""
| [p] => "\x27" ++ p.1 ++ "\x27: " ++ pyRepr p.2
| p :: ps => "\x27" ++ p.1 ++ "\x27: " ++ pyRepr p.2 ++ ", " ++ pyReprFields ps

end

/-- Model of Python `str(value)` on a `json.loads` value: a top-level
string renders unquoted, everything else renders as its repr. -/
def pyStr : Json → String
| .str s => s
| j => pyRepr j

/-- Rendering of the `Optional[dict]` response in the f-string of line 106
(`str()` semantics, `None` for the absent case). -/
def pyStrOpt : Option Json → String
| none => "None"
| some j => pyStr j

-- ---------------------------------------------------------------------------
-- Data model (backend/app/models/mcp.py)
-- ---------------------------------------------------------------------------

/-- MCPServerStatus enum. -/
inductive MCPServerStatus where
| unknown
| healthy
| unhealthy
| checking
deriving DecidableEq

/-- MCPToolSchema.  A pydantic v2 model (the repo is on pydantic v2:
`pydantic_settings`, `model_dump`), so construction validates: `name` and
`description` must be `str` values (v2 performs no int-to-str coercion)
and `input_schema` a `Dict[str, Any]`, anything else raising
`ValidationError`.  The validated dict is kept as its field list. -/
structure MCPToolSchema where
  name : String
  description : String
  input_schema : List (String × Json)

/-- MCPServerEntry.  `category` is kept as its string value and
`last_health_check` as a rational timestamp (`datetime` is opaque to the
claims).  Field defaults follow the Python model. -/
structure MCPServerEntry where
  id : String
  name : String
  description : String
  category : String
  command : String := "npx"
  args : List String := []
  endpoint_url : Option String := none
  required_env : List String := []
  optional_env : List String := []
  npm_package : Option String := none
  documentation_url : Option String := none
  icon : Option String := none
  tags : List String := []
  status : MCPServerStatus := .unknown
  tools : List MCPToolSchema := []
  last_health_check : Option ℚ := none
  is_official : Bool := false

/-- MCPHealthResult.  `checked_at` (a construction-time timestamp with no
role in any claim) is not modelled; the remaining fields and their
defaults follow the Python model. -/
structure MCPHealthResult where
  server_id : String
  status : MCPServerStatus
  tools_count : Nat := 0
  tools : List MCPToolSchema := []
  response_time_ms : ℚ := 0
  error : Option String := none

-- ---------------------------------------------------------------------------
-- Environment maps (os.environ and env_overrides)
-- ---------------------------------------------------------------------------

/-- A Python `dict[str, str]` modelled as an association list in insertion
order; on lookup the last binding for a key wins, so appending updated
bindings models `dict.update`. -/
abbrev EnvMap := List (String × String)

/-- Dict lookup: the last binding for the key, if any. -/
def envGet (m : EnvMap) (k : String) : Option String :=
  m.foldl (fun acc p => if p.1 == k then some p.2 else acc) none

/-- Embeds `env = dict(os.environ); if env_overrides: env.update(env_overrides)`
from check_server_health: a copy of the ambient environment, updated with
the overrides when the override dict is non-empty and not None (Python
truthiness of `env_overrides`). -/
def mergeEnv (ambient : EnvMap) (env_overrides : Option EnvMap) : EnvMap :=
  match env_overrides with
  | none => ambient
  | some o => if o.isEmpty then ambient else ambient ++ o

-- ---------------------------------------------------------------------------
-- Registry (backend/app/services/mcp_registry.py)
-- ---------------------------------------------------------------------------

/-- The `_SERVERS` dict, keyed by server id. -/
abbrev Registry := String → Option MCPServerEntry

/-- Embeds `get_server`: `_SERVERS.get(server_id)`. -/
def get_server (reg : Registry) (server_id : String) : Option MCPServerEntry :=
  reg server_id

/-- Embeds `update_server_health(server_id, status, tools=None)`: when the
id resolves (a registered entry object is always truthy), overwrite
`status`, replace `tools` only when a tools argument was supplied, and
stamp `last_health_check` with the current time (`datetime.utcnow()`,
passed in as `now`); a no-op when the id is absent. -/
def update_server_health (server_id : String) (status : MCPServerStatus)
    (tools : Option (List MCPToolSchema)) (now : ℚ) (reg : Registry) : Registry :=
  match reg server_id with
  | none => reg
  | some srv =>
    fun i =>
      if i = server_id then
        some { srv with
                status := status
                tools := tools.getD srv.tools
                last_health_check := some now }
      else reg i

-- ---------------------------------------------------------------------------
-- Health checker (backend/app/services/mcp_health.py)
-- ---------------------------------------------------------------------------

/-- The fixed `initialize` JSON-RPC request (`_JSONRPC_INIT`). -/
def jsonrpcInitRequest : Json :=
  .obj [("jsonrpc", .str "2.0"), ("id", .num 1), ("method", .str "initialize"),
        ("params", .obj [("protocolVersion", .str "2024-11-05"),
                         ("clientInfo", .obj [("name", .str "my-agent-too-healthcheck"),
                                              ("version", .str "0.1.0")]),
                         ("capabilities", .obj [])])]

/-- The fixed `tools/list` JSON-RPC request (`_JSONRPC_LIST_TOOLS`). -/
def jsonrpcListToolsRequest : Json :=
  .obj [("jsonrpc", .str "2.0"), ("id", .num 2), ("method", .str "tools/list"),
        ("params", .obj [])]

/-- Outcome of one `asyncio.wait_for(stdout.readline(), timeout)` together
with the decode/parse result of the line it produced:
`timeout` — `asyncio.TimeoutError` was raised by `wait_for`;
`eof` — `readline` returned an empty bytes object (end-of-stream);
`nonUtf8` — a line arrived but `line.decode()` raises `UnicodeDecodeError`;
`badJson` — the line decodes to text but `json.loads` raises
`json.JSONDecodeError`;
`msg j` — the line parses to the JSON value `j`. -/
inductive LineRead where
| timeout
| eof
| nonUtf8
| badJson
| msg (j : Json)

/-- The Python default of `_read_response`'s `timeout` parameter
(`timeout: float = 10.0`). -/
def readResponseDefaultTimeoutS : ℚ := 10

/-- The Python default of `check_server_health`'s `timeout` parameter
(`timeout: float = 15.0`). -/
def checkDefaultTimeoutS : ℚ := 15

/-- Embeds `_read_response`: returns `None` when `asyncio.wait_for` times
out, when `readline` hits end-of-stream (`if not line`), or when
`json.loads` fails (the `except` clause catches exactly
`asyncio.TimeoutError` and `json.JSONDecodeError`); returns the parsed
message otherwise.  A `UnicodeDecodeError` from `line.decode()` is caught
by neither handler and propagates to the caller.  The `timeout` argument
only selects which oracle outcome is possible, so it does not appear
here; the trace of `check_server_health` records the timeout passed to
each read. -/
def readResponse : LineRead → Except PyExc (Option Json)
| .timeout => .ok none
| .eof => .ok none
| .nonUtf8 => .error .unicodeDecodeError
| .badJson => .ok none
| .msg j => .ok (some j)

/-- Embeds line 105, `if not init_resp or "result" not in init_resp:`:
`True` when the response is `None` or falsy, otherwise the negation of the
membership test, which itself may raise `TypeError` on a truthy
non-container response. -/
def initFailedCheck : Option Json → Except PyExc Bool
| none => .ok true
| some j =>
  if !j.truthy then .ok true
  else (Json.mem "result" j).map (fun b => !b)

/-- Embeds the loop body of lines 133-138: one `MCPToolSchema` built from
one raw entry with `t.get("name", "")`, `t.get("description", "")`,
`t.get("inputSchema", {})`.  The first failing get raises
(`AttributeError` when the entry is not a dict); then the pydantic v2
constructor validates the three values, raising `ValidationError` unless
`name` and `description` are strings and `inputSchema` is a dict (the
defaults `""`, `""`, `{}` always validate). -/
def rawToToolSchema (t : Json) : Except PyExc MCPToolSchema :=
  match Json.dictGet t "name" (.str ""), Json.dictGet t "description" (.str ""),
        Json.dictGet t "inputSchema" (.obj []) with
  | .ok n, .ok d, .ok s =>
    match n, d, s with
    | .str ns, .str ds, .obj ss => .ok (MCPToolSchema.mk ns ds ss)
    | _, _, _ => .error .validationError
  | .error e, _, _ => .error e
  | _, .error e, _ => .error e
  | _, _, .error e => .error e

/-- Embeds lines 130-138: starting from `tools = []`, when
`tools_resp and "result" in tools_resp` holds (the `and` short-circuits on
a falsy response, and the membership test may raise), take
`tools_resp["result"].get("tools", [])` and build an `MCPToolSchema` from
each iterated entry; each dynamic operation raises on ill-typed operands
exactly as in Python, and the first raised exception escapes. -/
def extractTools (tools_resp : Option Json) : Except PyExc (List MCPToolSchema) :=
  match tools_resp with
  | none => .ok []
  | some j =>
    match j.truthy with
    | false => .ok []
    | true =>
      match Json.mem "result" j with
      | .error e => .error e
      | .ok false => .ok []
      | .ok true =>
        match Json.subscript j "result" with
        | .error e => .error e
        | .ok res =>
          match Json.dictGet res "tools" (.arr []) with
          | .error e => .error e
          | .ok raw_tools =>
            match Json.pyIter raw_tools with
            | .error e => .error e
            | .ok items => items.mapM rawToToolSchema

/-- Oracle fixing the outcome of each external interaction of one
`check_server_health` call, in program order.  `elapsedMs` is the value of
`(time.monotonic() - start) * 1000` at whichever of the three exit points
computes it (each execution computes it at most once). -/
structure World where
  spawnExc : Option PyExc
  drainInitExc : Option PyExc
  initRead : LineRead
  drainNotifyExc : Option PyExc
  drainListExc : Option PyExc
  toolsRead : LineRead
  elapsedMs : ℚ

/-- Side effects performed by one `check_server_health` call, in order:
the successful process spawn with the command, argument list and
environment passed to `create_subprocess_exec`; each `_read_response` call
with the timeout it was given; each `_kill` (whose own
`ProcessLookupError` tolerance makes it always succeed); and each
`update_server_health` call with its arguments. -/
inductive Eff where
| spawn (command : String) (args : List String) (env : EnvMap)
| readCall (timeoutS : ℚ)
| kill
| updateHealth (server_id : String) (status : MCPServerStatus)
    (tools : Option (List MCPToolSchema))

/-- Embeds the `try:` block of `check_server_health` (lines 90-151) for a
known server entry: the trace of effects performed so far is returned in
either case, alongside the produced result or the exception that escaped
the block. -/
def checkTry (server_id : String) (entry : MCPServerEntry) (env : EnvMap)
    (timeout : ℚ) (w : World) : List Eff × Except PyExc MCPHealthResult :=
  match w.spawnExc with
  | some e => ([], .error e)
  | none =>
    let tr0 : List Eff := [.spawn entry.command entry.args env]
    match w.drainInitExc with
    | some e => (tr0, .error e)
    | none =>
      let tr1 := tr0 ++ [.readCall timeout]
      match readResponse w.initRead with
      | .error e => (tr1, .error e)
      | .ok init_resp =>
        match initFailedCheck init_resp with
        | .error e => (tr1, .error e)
        | .ok true =>
          let error_msg := "Initialize failed: " ++ pyStrOpt init_resp
          let tr2 := tr1 ++ [.kill]
          let result : MCPHealthResult :=
            { server_id := server_id
              status := .unhealthy
              error := some error_msg
              response_time_ms := w.elapsedMs }
          (tr2 ++ [.updateHealth server_id .unhealthy none], .ok result)
        | .ok false =>
          match w.drainNotifyExc with
          | some e => (tr1, .error e)
          | none =>
            match w.drainListExc with
            | some e => (tr1, .error e)
            | none =>
              let tr2 := tr1 ++ [.readCall timeout]
              match readResponse w.toolsRead with
              | .error e => (tr2, .error e)
              | .ok tools_resp =>
                match extractTools tools_resp with
                | .error e => (tr2, .error e)
                | .ok tools =>
                  let tr3 := tr2 ++ [.kill, .updateHealth server_id .healthy (some tools)]
                  (tr3, .ok { server_id := server_id
                              status := .healthy
                              tools_count := tools.length
                              tools := tools
                              response_time_ms := w.elapsedMs })

/-- Embeds `check_server_health(server_id, env_overrides, timeout)` against
registry state `reg` and ambient environment `ambient` (`os.environ`),
driven by oracle `w`; returns the `MCPHealthResult` together with the
trace of effects performed.  An unknown id returns early with no effects;
otherwise the `try:` block runs and the `except Exception` handler (lines
153-161) converts an escaped exception into an unhealthy result after one
more `update_server_health` call. -/
def check_server_health (reg : Registry) (server_id : String)
    (env_overrides : Option EnvMap) (timeout : ℚ) (ambient : EnvMap)
    (w : World) : MCPHealthResult × List Eff :=
  match get_server reg server_id with
  | none =>
    ({ server_id := server_id
       status := .unhealthy
       error := some ("Unknown server: " ++ server_id) }, [])
  | some entry =>
    let env := mergeEnv ambient env_overrides
    match checkTry server_id entry env timeout w with
    | (tr, .ok result) => (result, tr)
    | (tr, .error exc) =>
      ({ server_id := server_id
         status := .unhealthy
         error := some exc.message
         response_time_ms := w.elapsedMs },
       tr ++ [.updateHealth server_id .unhealthy none])

/-- Replay of one effect against a registry state: only
`update_server_health` touches the registry.  `now` stands for the
`datetime.utcnow()` read by the update. -/
def applyEff (now : ℚ) (reg : Registry) : Eff → Registry
| .updateHealth server_id status tools => update_server_health server_id status tools now reg
| _ => reg

/-- Replay of a whole effect trace against a registry state. -/
def applyTrace (now : ℚ) (reg : Registry) (tr : List Eff) : Registry :=
  tr.foldl (applyEff now) reg

-- ---------------------------------------------------------------------------
-- Trace observations
-- ---------------------------------------------------------------------------

/-- Whether an effect is a process spawn. -/
def Eff.isSpawn : Eff → Bool
| .spawn _ _ _ => true
| _ => false

/-- Whether an effect is a `_kill` call. -/
def Eff.isKill : Eff → Bool
| .kill => true
| _ => false

/-- Whether an effect is an `update_server_health` call. -/
def Eff.isUpdate : Eff → Bool
| .updateHealth _ _ _ => true
| _ => false

/-- Number of process spawns in a trace. -/
def spawnCount (tr : List Eff) : Nat := tr.countP Eff.isSpawn

/-- Number of `_kill` calls in a trace. -/
def killCount (tr : List Eff) : Nat := tr.countP Eff.isKill

/-- Number of `update_server_health` calls in a trace. -/
def updateCount (tr : List Eff) : Nat := tr.countP Eff.isUpdate

/-- The timeouts passed to the `_read_response` calls of a trace, in call
order. -/
def readTimeouts (tr : List Eff) : List ℚ :=
  tr.filterMap (fun e => match e with | .readCall t => some t | _ => none)

/-- Boolean form of a successful membership test: `k in j` evaluated to
`True` without raising. -/
def memOkB (k : String) (j : Json) : Bool :=
  match Json.mem k j with
  | .ok b => b
  | .error _ => false

/-- Whether a read outcome satisfies the initialize-step acceptance test of
line 105: a parsed message that is truthy and contains a `result` field. -/
def initStepOk : LineRead → Bool
| .msg j => j.truthy && memOkB "result" j
| _ => false

/-- Read outcomes of the `tools/list` step that the code degrades to
"healthy with zero tools" without raising: a timeout, end-of-stream, a
JSON parse failure, a falsy message, or a truthy message supporting the
membership test but lacking a `result` member. -/
def toolsRespBenign : LineRead → Bool
| .timeout => true
| .eof => true
| .badJson => true
| .nonUtf8 => false
| .msg j =>
  !j.truthy ||
    (match Json.mem "result" j with
     | .ok b => !b
     | .error _ => false)

/-- The ToolSchema built from one valid raw dict entry of the `tools`
array: `name`/`description` default to the empty string and `inputSchema`
to the empty dict; the projections are meaningful beneath a
`validToolEntry` guard, where the looked-up values have the validated
shapes. -/
def defaultedSchema (t : Json) : MCPToolSchema :=
  ⟨jsonAsStr (Json.objGetD t "name" (.str "")),
   jsonAsStr (Json.objGetD t "description" (.str "")),
   jsonAsObj (Json.objGetD t "inputSchema" (.obj []))⟩

/-- Whether one raw tool entry passes the loop body without raising: it is
a dict whose (defaulted) `name` and `description` values are strings and
whose (defaulted) `inputSchema` value is a dict, so the pydantic
constructor validates. -/
def validToolEntry (t : Json) : Bool :=
  t.isObj && (Json.objGetD t "name" (.str "")).isStr
    && (Json.objGetD t "description" (.str "")).isStr
    && (Json.objGetD t "inputSchema" (.obj [])).isObj

/-- Whether every element of a list of raw tool entries is valid. -/
def allValidTools (raw : List Json) : Bool := raw.all validToolEntry

-- ---------------------------------------------------------------------------
-- Concrete fixtures (the spec's `echo-ok` scenario and variants)
-- ---------------------------------------------------------------------------

/-- The spec's concrete scenario entry: `{id: "echo-ok", command: "echo-tool"}`. -/
def echoEntry : MCPServerEntry :=
  { id := "echo-ok", name := "Echo", description := "stub echo server",
    category := "dev-tools", command := "echo-tool" }

/-- A registry holding exactly the `echo-ok` entry. -/
def regEcho : Registry := fun i => if i = "echo-ok" then some echoEntry else none

/-- An ambient environment with `X=0`. -/
def ambientX : EnvMap := [("X", "0"), ("PATH", "/usr/bin")]

/-- A successful `initialize` response line: `{"jsonrpc":"2.0","id":1,"result":{}}`. -/
def okInitLine : LineRead :=
  .msg (.obj [("jsonrpc", .str "2.0"), ("id", .num 1), ("result", .obj [])])

/-- The raw `ping` tool entry of the spec's concrete scenario. -/
def pingToolJson : Json :=
  .obj [("name", .str "ping"), ("description", .str ""), ("inputSchema", .obj [])]

/-- A successful `tools/list` response line carrying the `ping` tool. -/
def okToolsLine : LineRead :=
  .msg (.obj [("jsonrpc", .str "2.0"), ("id", .num 2),
              ("result", .obj [("tools", .arr [pingToolJson])])])

/-- Oracle for the fully successful handshake. -/
def wHappy : World :=
  ⟨none, none, okInitLine, none, none, okToolsLine, 12⟩

/-- Oracle where `initialize` succeeds but the `tools/list` read times out. -/
def wToolsTimeout : World :=
  ⟨none, none, okInitLine, none, none, .timeout, 7⟩

/-- Oracle where the process answers `initialize` with a line that is not
valid UTF-8, so `_read_response` raises `UnicodeDecodeError`. -/
def wUnicode : World :=
  ⟨none, none, .nonUtf8, none, none, .timeout, 3⟩

/-- Oracle where `initialize` succeeds and the `tools/list` response parses
to the bare number `5` (truthy, supports no membership test). -/
def wNumTools : World :=
  ⟨none, none, okInitLine, none, none, .msg (.num 5), 9⟩

/-- Oracle where `initialize` succeeds and the `tools/list` response is a
well-shaped result whose single tool entry carries a non-string name
(`{"name": 5}`), which the pydantic v2 constructor rejects. -/
def wBadName : World :=
  ⟨none, none, okInitLine, none, none,
   .msg (.obj [("result", .obj [("tools", .arr [.obj [("name", .num 5)]])])]), 11⟩

/-- Oracle where draining the `initialize` write raises (e.g. the pipe
broke). -/
def wDrainFail : World :=
  ⟨none, some (.oserror "broken pipe"), .timeout, none, none, .timeout, 4⟩

/-- Oracle where `create_subprocess_exec` itself raises. -/
def wSpawnFail : World :=
  ⟨some (.oserror "No such file or directory: echo-tool"), none, .timeout,
   none, none, .timeout, 2⟩


-- ---------------------------------------------------------------------------
-- Shared lemmas about the try-block
-- ---------------------------------------------------------------------------

/-- Exhaustive case analysis of the try-block: every execution produces one
of six trace/result shapes — spawn failed; drain of the initialize write
failed; the initialize read step raised; the initialize response was
rejected (kill, then one unhealthy registry write, unhealthy result); a
later step raised after both reads; or the full success path (kill, then
one healthy registry write carrying the extracted tools), which moreover
requires the initialize response to have passed the acceptance test. -/
theorem checkTry_cases (sid : String) (entry : MCPServerEntry) (env : EnvMap)
    (t : ℚ) (w : World) :
    (∃ e, checkTry sid entry env t w = ([], .error e)) ∨
    (∃ e, checkTry sid entry env t w =
        ([.spawn entry.command entry.args env], .error e)) ∨
    (∃ e, checkTry sid entry env t w =
        ([.spawn entry.command entry.args env, .readCall t], .error e)) ∨
    (∃ msg, checkTry sid entry env t w =
        ([.spawn entry.command entry.args env, .readCall t, .kill,
          .updateHealth sid .unhealthy none],
         .ok ⟨sid, .unhealthy, 0, [], w.elapsedMs, some msg⟩)) ∨
    (∃ e, checkTry sid entry env t w =
        ([.spawn entry.command entry.args env, .readCall t, .readCall t],
         .error e)) ∨
    (∃ tools, checkTry sid entry env t w =
        ([.spawn entry.command entry.args env, .readCall t, .readCall t, .kill,
          .updateHealth sid .healthy (some tools)],
         .ok ⟨sid, .healthy, tools.length, tools, w.elapsedMs, none⟩) ∧
      initStepOk w.initRead = true) := by
  cases hs : w.spawnExc with
  | some e => exact Or.inl ⟨e, by simp [checkTry, hs]⟩
  | none =>
  cases hd : w.drainInitExc with
  | some e => exact Or.inr (Or.inl ⟨e, by simp [checkTry, hs, hd]⟩)
  | none =>
  cases hi : w.initRead with
  | timeout =>
    exact Or.inr (Or.inr (Or.inr (Or.inl
      ⟨"Initialize failed: " ++ pyStrOpt none,
       by simp [checkTry, hs, hd, hi, readResponse, initFailedCheck]⟩)))
  | eof =>
    exact Or.inr (Or.inr (Or.inr (Or.inl
      ⟨"Initialize failed: " ++ pyStrOpt none,
       by simp [checkTry, hs, hd, hi, readResponse, initFailedCheck]⟩)))
  | badJson =>
    exact Or.inr (Or.inr (Or.inr (Or.inl
      ⟨"Initialize failed: " ++ pyStrOpt none,
       by simp [checkTry, hs, hd, hi, readResponse, initFailedCheck]⟩)))
  | nonUtf8 =>
    exact Or.inr (Or.inr (Or.inl
      ⟨.unicodeDecodeError, by simp [checkTry, hs, hd, hi, readResponse]⟩))
  | msg j =>
  cases ht : j.truthy with
  | false =>
    exact Or.inr (Or.inr (Or.inr (Or.inl
      ⟨"Initialize failed: " ++ pyStrOpt (some j),
       by simp [checkTry, hs, hd, hi, readResponse, initFailedCheck, ht]⟩)))
  | true =>
  cases hm : Json.mem "result" j with
  | error e =>
    exact Or.inr (Or.inr (Or.inl
      ⟨e, by simp [checkTry, hs, hd, hi, readResponse, initFailedCheck, ht, hm,
                   Except.map]⟩))
  | ok b =>
  cases b with
  | false =>
    exact Or.inr (Or.inr (Or.inr (Or.inl
      ⟨"Initialize failed: " ++ pyStrOpt (some j),
       by simp [checkTry, hs, hd, hi, readResponse, initFailedCheck, ht, hm,
                Except.map]⟩)))
  | true =>
  cases hdn : w.drainNotifyExc with
  | some e =>
    exact Or.inr (Or.inr (Or.inl
      ⟨e, by simp [checkTry, hs, hd, hi, readResponse, initFailedCheck, ht, hm,
                   Except.map, hdn]⟩))
  | none =>
  cases hdl : w.drainListExc with
  | some e =>
    exact Or.inr (Or.inr (Or.inl
      ⟨e, by simp [checkTry, hs, hd, hi, readResponse, initFailedCheck, ht, hm,
                   Except.map, hdn, hdl]⟩))
  | none =>
  cases hr2 : readResponse w.toolsRead with
  | error e =>
    refine Or.inr (Or.inr (Or.inr (Or.inr (Or.inl ⟨e, ?_⟩))))
    simp [readResponse] at hr2
    simp [checkTry, hs, hd, hi, readResponse, initFailedCheck, ht, hm,
          Except.map, hdn, hdl, hr2]
  | ok tools_resp =>
  cases hex : extractTools tools_resp with
  | error e =>
    refine Or.inr (Or.inr (Or.inr (Or.inr (Or.inl ⟨e, ?_⟩))))
    simp [readResponse] at hr2
    simp [checkTry, hs, hd, hi, readResponse, initFailedCheck, ht, hm,
          Except.map, hdn, hdl, hr2, hex]
  | ok tools =>
    refine Or.inr (Or.inr (Or.inr (Or.inr (Or.inr ⟨tools, ?_, ?_⟩))))
    · simp [readResponse] at hr2
      simp [checkTry, hs, hd, hi, readResponse, initFailedCheck, ht, hm,
            Except.map, hdn, hdl, hr2, hex]
    · simp [initStepOk, hi, ht, memOkB, hm]

/-- Number of `update_server_health` calls of a trace whose status argument
is terminal (`healthy` or `unhealthy`). -/
def terminalUpdateCount (tr : List Eff) : Nat :=
  tr.countP (fun e =>
    match e with
    | .updateHealth _ .healthy _ => true
    | .updateHealth _ .unhealthy _ => true
    | _ => false)

-- ---------------------------------------------------------------------------
-- Claims
-- ---------------------------------------------------------------------------

/-- C6: for every server id not present in the registry, check_health
returns status unhealthy with the default `tools_count = 0` and the error
message `"Unknown server: " ++ server_id`, and the effect trace is empty —
in particular no process spawn and no registry write happen; the
short-circuit is the first thing the function does, before any spawn
attempt. -/
theorem unknown_server_short_circuits (reg : Registry) (server_id : String)
    (env_overrides : Option EnvMap) (timeout : ℚ) (ambient : EnvMap) (w : World)
    (h : reg server_id = none) :
    check_server_health reg server_id env_overrides timeout ambient w =
      ({ server_id := server_id, status := .unhealthy,
         error := some ("Unknown server: " ++ server_id) }, []) := by
  simp [check_server_health, get_server, h]

/-- Witness for C6 at the concrete id `nope`, absent from the one-entry
registry. -/
theorem unknown_server_short_circuits_witness :
    regEcho "nope" = none ∧
    check_server_health regEcho "nope" none checkDefaultTimeoutS ambientX wHappy =
      ({ server_id := "nope", status := .unhealthy,
         error := some "Unknown server: nope" }, []) :=
  ⟨rfl, unknown_server_short_circuits regEcho "nope" none checkDefaultTimeoutS
    ambientX wHappy rfl⟩

/-- C3: check_server_health is a total function of its oracle (it returns a
structured `MCPHealthResult` for every behaviour of the spawned process),
and whenever the try-block escapes with an exception `e`, the handler of
lines 153-161 returns an unhealthy result carrying `str(e)` as `error` and
the computed elapsed milliseconds, after performing exactly one more
registry write marking the server unhealthy. -/
theorem exception_boundary (reg : Registry) (server_id : String)
    (env_overrides : Option EnvMap) (timeout : ℚ) (ambient : EnvMap) (w : World)
    (entry : MCPServerEntry) (tr : List Eff) (e : PyExc)
    (hreg : reg server_id = some entry)
    (hrun : checkTry server_id entry (mergeEnv ambient env_overrides) timeout w
      = (tr, .error e)) :
    check_server_health reg server_id env_overrides timeout ambient w =
      ({ server_id := server_id, status := .unhealthy,
         response_time_ms := w.elapsedMs, error := some e.message },
       tr ++ [.updateHealth server_id .unhealthy none]) := by
  simp [check_server_health, get_server, hreg, hrun]

/-- Witness for C3: the pipe breaks while draining the initialize write;
the call still returns a structured unhealthy result carrying the
exception's message, and the unhealthy registry write happens. -/
theorem exception_boundary_witness :
    regEcho "echo-ok" = some echoEntry ∧
    checkTry "echo-ok" echoEntry (mergeEnv ambientX none) checkDefaultTimeoutS wDrainFail
      = ([.spawn "echo-tool" [] ambientX], .error (.oserror "broken pipe")) ∧
    check_server_health regEcho "echo-ok" none checkDefaultTimeoutS ambientX wDrainFail =
      ({ server_id := "echo-ok", status := .unhealthy,
         response_time_ms := 4, error := some "broken pipe" },
       [.spawn "echo-tool" [] ambientX, .updateHealth "echo-ok" .unhealthy none]) :=
  ⟨rfl, rfl,
   exception_boundary regEcho "echo-ok" none checkDefaultTimeoutS ambientX wDrainFail
     echoEntry [.spawn "echo-tool" [] ambientX] (.oserror "broken pipe") rfl rfl⟩

/-- C4: every execution that spawns a process performs exactly one
`update_server_health` call, and that call carries a terminal status
(healthy or unhealthy) — on the handshake-reject path and the success path
the write happens inside the try-block, and on every exception path the
handler performs it instead; an execution against an unknown server id has
an empty effect trace, hence no registry write at all. -/
theorem single_terminal_status_write (reg : Registry) (server_id : String)
    (env_overrides : Option EnvMap) (timeout : ℚ) (ambient : EnvMap) (w : World) :
    (∀ c a e, Eff.spawn c a e
        ∈ (check_server_health reg server_id env_overrides timeout ambient w).2 →
      updateCount (check_server_health reg server_id env_overrides timeout ambient w).2 = 1 ∧
      terminalUpdateCount (check_server_health reg server_id env_overrides timeout ambient w).2 = 1) ∧
    (reg server_id = none →
      (check_server_health reg server_id env_overrides timeout ambient w).2 = []) := by
  constructor
  · intro c a e hmem
    cases hreg : reg server_id with
    | none => simp [check_server_health, get_server, hreg] at hmem
    | some entry =>
      rcases checkTry_cases server_id entry (mergeEnv ambient env_overrides) timeout w with
        ⟨e1, hct⟩ | ⟨e1, hct⟩ | ⟨e1, hct⟩ | ⟨m1, hct⟩ | ⟨e1, hct⟩ | ⟨tools, hct, hstep⟩ <;>
      constructor <;>
      simp [check_server_health, get_server, hreg, hct, updateCount,
            terminalUpdateCount, List.countP_append, List.countP_cons,
            Eff.isUpdate]
  · intro h
    simp [check_server_health, get_server, h]

/-- Witness for C4: the fully successful handshake spawns, and its trace
contains exactly one registry write, a terminal one. -/
theorem single_terminal_status_write_witness :
    Eff.spawn "echo-tool" [] ambientX
      ∈ (check_server_health regEcho "echo-ok" none checkDefaultTimeoutS ambientX wHappy).2 ∧
    updateCount (check_server_health regEcho "echo-ok" none checkDefaultTimeoutS ambientX wHappy).2 = 1 ∧
    terminalUpdateCount (check_server_health regEcho "echo-ok" none checkDefaultTimeoutS ambientX wHappy).2 = 1 :=
  have hmem : Eff.spawn "echo-tool" [] ambientX
      ∈ (check_server_health regEcho "echo-ok" none checkDefaultTimeoutS ambientX wHappy).2 :=
    List.Mem.head _
  ⟨hmem,
   (single_terminal_status_write regEcho "echo-ok" none checkDefaultTimeoutS
      ambientX wHappy).1 "echo-tool" [] ambientX hmem⟩

/-- Folding dict-update bindings from an arbitrary accumulator: the result
is the last binding for the key when one exists, the accumulator
otherwise. -/
theorem envGet_foldl_acc (l : EnvMap) (k : String) (acc : Option String) :
    l.foldl (fun a p => if p.1 == k then some p.2 else a) acc =
      match l.foldl (fun a p => if p.1 == k then some p.2 else a) none with
      | some v => some v
      | none => acc := by
  induction l generalizing acc with
  | nil => simp
  | cons p l ih =>
    simp only [List.foldl_cons]
    by_cases hp : (p.1 == k) = true
    · simp only [hp, if_pos]
      rw [ih (some p.2)]
      cases List.foldl (fun a p => if (p.1 == k) = true then some p.2 else a) none l with
      | none => rfl
      | some v => rfl
    · simp only [hp, if_neg, Bool.false_eq_true, not_false_eq_true]
      exact ih acc

/-- Lookup in the merged spawn environment: the override's last binding for
a key wins, and keys the overrides do not bind fall back to the ambient
environment unchanged. -/
theorem envGet_mergeEnv (ambient : EnvMap) (ov : Option EnvMap) (k : String) :
    envGet (mergeEnv ambient ov) k =
      match envGet (ov.getD []) k with
      | some v => some v
      | none => envGet ambient k := by
  cases ov with
  | none => simp [mergeEnv, envGet]
  | some o =>
    by_cases ho : o.isEmpty
    · cases o with
      | nil => simp [mergeEnv, envGet]
      | cons p l => simp [List.isEmpty] at ho
    · simp only [mergeEnv, ho, if_neg, Option.getD_some, Bool.false_eq_true,
                 not_false_eq_true]
      unfold envGet
      rw [List.foldl_append]
      exact envGet_foldl_acc o k _

/-- C8: the environment recorded by the spawn effect is exactly the merged
environment, and pointwise the override value wins on every key collision
while ambient variables not overridden are preserved unchanged. -/
theorem spawn_env_override_precedence (reg : Registry) (server_id : String)
    (env_overrides : Option EnvMap) (timeout : ℚ) (ambient : EnvMap) (w : World)
    (c : String) (a : List String) (e : EnvMap)
    (hmem : Eff.spawn c a e
      ∈ (check_server_health reg server_id env_overrides timeout ambient w).2) :
    e = mergeEnv ambient env_overrides ∧
    ∀ k, envGet e k =
      match envGet (env_overrides.getD []) k with
      | some v => some v
      | none => envGet ambient k := by
  have he : e = mergeEnv ambient env_overrides := by
    cases hreg : reg server_id with
    | none => simp [check_server_health, get_server, hreg] at hmem
    | some entry =>
      rcases checkTry_cases server_id entry (mergeEnv ambient env_overrides) timeout w with
        ⟨e1, hct⟩ | ⟨e1, hct⟩ | ⟨e1, hct⟩ | ⟨m1, hct⟩ | ⟨e1, hct⟩ | ⟨tools, hct, hstep⟩ <;>
      simp [check_server_health, get_server, hreg, hct] at hmem <;>
      exact hmem.2.2
  subst he
  exact ⟨rfl, fun k => envGet_mergeEnv ambient env_overrides k⟩

/-- Witness for C8: ambient `X=0` overridden by `env_overrides` `X=1`; the
spawned environment contains `X=1`, and the ambient `PATH` survives. -/
theorem spawn_env_override_precedence_witness :
    Eff.spawn "echo-tool" [] (ambientX ++ [("X", "1")])
      ∈ (check_server_health regEcho "echo-ok" (some [("X", "1")])
          checkDefaultTimeoutS ambientX wHappy).2 ∧
    envGet (ambientX ++ [("X", "1")]) "X" = some "1" ∧
    envGet (ambientX ++ [("X", "1")]) "PATH" = some "/usr/bin" :=
  have hmem : Eff.spawn "echo-tool" [] (ambientX ++ [("X", "1")])
      ∈ (check_server_health regEcho "echo-ok" (some [("X", "1")])
          checkDefaultTimeoutS ambientX wHappy).2 := List.Mem.head _
  ⟨hmem,
   (spawn_env_override_precedence regEcho "echo-ok" (some [("X", "1")])
      checkDefaultTimeoutS ambientX wHappy "echo-tool" [] (ambientX ++ [("X", "1")])
      hmem).2 "X",
   (spawn_env_override_precedence regEcho "echo-ok" (some [("X", "1")])
      checkDefaultTimeoutS ambientX wHappy "echo-tool" [] (ambientX ++ [("X", "1")])
      hmem).2 "PATH"⟩

/-- C9 counterexample: in a run with the default `timeout` argument, the
initialize-step read (the first `_read_response` call of the trace) is
issued with the full 15-second default of `check_server_health`, not with
the 10-second default of `_read_response` — line 104 passes
`timeout=timeout`, so `_read_response`'s own default never applies there. -/
theorem init_read_timeout_counterexample :
    readTimeouts (check_server_health regEcho "echo-ok" none checkDefaultTimeoutS
        ambientX wHappy).2
      = [checkDefaultTimeoutS, checkDefaultTimeoutS] ∧
    checkDefaultTimeoutS = 15 ∧ readResponseDefaultTimeoutS = 10 ∧
    checkDefaultTimeoutS ≠ readResponseDefaultTimeoutS :=
  ⟨rfl, rfl, rfl, by decide⟩

/-- C9 amended: every `_read_response` call issued by check_server_health
(the initialize-step read and the tools/list-step read alike) carries the
caller-supplied `timeout` parameter, whose default is 15 seconds;
`_read_response`'s own 10-second default exists but is never used by
check_server_health. -/
theorem per_read_timeout_is_parameter (reg : Registry) (server_id : String)
    (env_overrides : Option EnvMap) (timeout : ℚ) (ambient : EnvMap) (w : World) :
    (∀ x, Eff.readCall x
        ∈ (check_server_health reg server_id env_overrides timeout ambient w).2 →
      x = timeout) ∧
    checkDefaultTimeoutS = 15 ∧ readResponseDefaultTimeoutS = 10 := by
  refine ⟨?_, rfl, rfl⟩
  intro x hmem
  cases hreg : reg server_id with
  | none => simp [check_server_health, get_server, hreg] at hmem
  | some entry =>
    rcases checkTry_cases server_id entry (mergeEnv ambient env_overrides) timeout w with
      ⟨e1, hct⟩ | ⟨e1, hct⟩ | ⟨e1, hct⟩ | ⟨m1, hct⟩ | ⟨e1, hct⟩ | ⟨tools, hct, hstep⟩ <;>
    simp [check_server_health, get_server, hreg, hct] at hmem <;>
    exact hmem

/-- Witness for the amended C9 at the successful concrete run. -/
theorem per_read_timeout_is_parameter_witness :
    Eff.readCall checkDefaultTimeoutS
      ∈ (check_server_health regEcho "echo-ok" none checkDefaultTimeoutS ambientX wHappy).2 ∧
    checkDefaultTimeoutS = checkDefaultTimeoutS :=
  have hmem : Eff.readCall checkDefaultTimeoutS
      ∈ (check_server_health regEcho "echo-ok" none checkDefaultTimeoutS ambientX wHappy).2 :=
    List.Mem.tail _ (List.Mem.head _)
  ⟨hmem,
   (per_read_timeout_is_parameter regEcho "echo-ok" none checkDefaultTimeoutS
      ambientX wHappy).1 checkDefaultTimeoutS hmem⟩

/-- C2 counterexample: a server that answers `initialize` with a `result`
but whose `tools/list` read times out (no tools/list response is ever
received) still gets its cached registry status set to healthy — line 143
runs `update_server_health(..., HEALTHY, tools)` regardless of the
tools/list outcome, so the claimed invariant fails on this reachable
state. -/
theorem healthy_without_tools_result_counterexample :
    wToolsTimeout.toolsRead = LineRead.timeout ∧
    (check_server_health regEcho "echo-ok" none checkDefaultTimeoutS ambientX
        wToolsTimeout).1.status = .healthy ∧
    ((applyTrace 99 regEcho
        (check_server_health regEcho "echo-ok" none checkDefaultTimeoutS ambientX
          wToolsTimeout).2) "echo-ok").map MCPServerEntry.status
      = some .healthy :=
  ⟨rfl, rfl, rfl⟩

/-- C2 amended: a health check writes status healthy into the registry only
if its initialize response was a parsed, truthy message containing a
`result` field; the tools/list step plays no part in the healthy/unhealthy
decision. -/
theorem healthy_write_requires_init_result (reg : Registry) (server_id : String)
    (env_overrides : Option EnvMap) (timeout : ℚ) (ambient : EnvMap) (w : World)
    (sid : String) (ts : Option (List MCPToolSchema))
    (hmem : Eff.updateHealth sid .healthy ts
      ∈ (check_server_health reg server_id env_overrides timeout ambient w).2) :
    initStepOk w.initRead = true := by
  cases hreg : reg server_id with
  | none => simp [check_server_health, get_server, hreg] at hmem
  | some entry =>
    rcases checkTry_cases server_id entry (mergeEnv ambient env_overrides) timeout w with
      ⟨e1, hct⟩ | ⟨e1, hct⟩ | ⟨e1, hct⟩ | ⟨m1, hct⟩ | ⟨e1, hct⟩ | ⟨tools, hct, hstep⟩ <;>
    simp [check_server_health, get_server, hreg, hct] at hmem
    exact hstep

/-- Witness for the amended C2: the tools/list-timeout run writes a healthy
status, and indeed its initialize response passed the acceptance test. -/
theorem healthy_write_requires_init_result_witness :
    Eff.updateHealth "echo-ok" .healthy (some [])
      ∈ (check_server_health regEcho "echo-ok" none checkDefaultTimeoutS ambientX
          wToolsTimeout).2 ∧
    initStepOk wToolsTimeout.initRead = true :=
  have hmem : Eff.updateHealth "echo-ok" .healthy (some [])
      ∈ (check_server_health regEcho "echo-ok" none checkDefaultTimeoutS ambientX
          wToolsTimeout).2 :=
    List.Mem.tail _ (List.Mem.tail _ (List.Mem.tail _ (List.Mem.tail _
      (List.Mem.head _))))
  ⟨hmem,
   healthy_write_requires_init_result regEcho "echo-ok" none checkDefaultTimeoutS
     ambientX wToolsTimeout "echo-ok" (some []) hmem⟩

/-- C1 (code defect): the `except Exception` handler of lines 153-161
returns without calling `_kill`, so an exception raised after the spawn —
here a `UnicodeDecodeError` from a non-UTF-8 initialize response line,
which `_read_response`'s `except` clause does not catch — produces an
execution that spawned a process but performed zero kill effects, leaving
the child running, against the spec's guarantee that `terminate()` runs
exactly once on every exit path. -/
theorem exception_path_skips_kill :
    spawnCount (check_server_health regEcho "echo-ok" none checkDefaultTimeoutS
        ambientX wUnicode).2 = 1 ∧
    killCount (check_server_health regEcho "echo-ok" none checkDefaultTimeoutS
        ambientX wUnicode).2 = 0 ∧
    (check_server_health regEcho "echo-ok" none checkDefaultTimeoutS ambientX
        wUnicode).1.status = .unhealthy :=
  ⟨rfl, rfl, rfl⟩

/-- C7 counterexample: a received line that cannot be decoded — because its
bytes are not valid UTF-8 — makes `_read_response` raise
`UnicodeDecodeError` to its caller instead of returning `None`: the
`except` clause catches only `asyncio.TimeoutError` and
`json.JSONDecodeError`, and `UnicodeDecodeError` is neither. -/
theorem read_response_raises_on_non_utf8 :
    readResponse LineRead.nonUtf8 = .error .unicodeDecodeError ∧
    readResponse LineRead.nonUtf8 ≠ .ok none :=
  ⟨rfl, fun h => Except.noConfusion h⟩

/-- C7 amended: `_read_response` returns `None` in exactly three cases —
the per-read timeout elapses, the stream reaches end-of-stream, or the
UTF-8-decoded line fails JSON parsing; every line that parses successfully
returns the parsed message; and a line that is not valid UTF-8 raises
`UnicodeDecodeError` to the caller. -/
theorem read_response_characterization :
    readResponse LineRead.timeout = .ok none ∧
    readResponse LineRead.eof = .ok none ∧
    readResponse LineRead.badJson = .ok none ∧
    readResponse LineRead.nonUtf8 = .error .unicodeDecodeError ∧
    ∀ j, readResponse (LineRead.msg j) = .ok (some j) :=
  ⟨rfl, rfl, rfl, rfl, fun _ => rfl⟩

/-- Inversion of the initialize-step acceptance test. -/
theorem initStepOk_inv (ev : LineRead) (h : initStepOk ev = true) :
    ∃ j, ev = .msg j ∧ j.truthy = true ∧ Json.mem "result" j = .ok true := by
  cases ev with
  | msg j =>
    obtain ⟨h1, h2⟩ : j.truthy = true ∧ memOkB "result" j = true := by
      simpa [initStepOk] using h
    refine ⟨j, rfl, h1, ?_⟩
    cases hm : Json.mem "result" j with
      | error e => simp [memOkB, hm] at h2
      | ok b =>
        cases b with
        | false => simp [memOkB, hm] at h2
        | true => rfl
  | timeout => simp [initStepOk] at h
  | eof => simp [initStepOk] at h
  | nonUtf8 => simp [initStepOk] at h
  | badJson => simp [initStepOk] at h

/-- Inversion of `isStr`. -/
theorem isStr_inv (j : Json) (h : j.isStr = true) : j = .str (jsonAsStr j) := by
  cases j <;> simp [Json.isStr, jsonAsStr] at h ⊢

/-- Inversion of `isObj`. -/
theorem isObj_inv (j : Json) (h : j.isObj = true) : j = .obj (jsonAsObj j) := by
  cases j <;> simp [Json.isObj, jsonAsObj] at h ⊢

/-- On a valid raw entry the loop body succeeds, producing the defaulted
schema. -/
theorem rawToToolSchema_valid (t : Json) (h : validToolEntry t = true) :
    rawToToolSchema t = .ok (defaultedSchema t) := by
  cases t with
  | obj fs =>
    obtain ⟨⟨h1, h2⟩, h3⟩ :
        ((Json.objGetD (Json.obj fs) "name" (Json.str "")).isStr = true ∧
          (Json.objGetD (Json.obj fs) "description" (Json.str "")).isStr = true) ∧
        (Json.objGetD (Json.obj fs) "inputSchema" (Json.obj [])).isObj = true := by
      simpa [validToolEntry, Json.isObj, Bool.and_eq_true] using h
    obtain ⟨ns, hn⟩ : ∃ v, Json.objGetD (Json.obj fs) "name" (Json.str "") = .str v :=
      ⟨_, isStr_inv _ h1⟩
    obtain ⟨ds, hd⟩ : ∃ v, Json.objGetD (Json.obj fs) "description" (Json.str "") = .str v :=
      ⟨_, isStr_inv _ h2⟩
    obtain ⟨ss, hs⟩ : ∃ g, Json.objGetD (Json.obj fs) "inputSchema" (Json.obj []) = .obj g :=
      ⟨_, isObj_inv _ h3⟩
    simp [rawToToolSchema, defaultedSchema, Json.dictGet, hn, hd, hs, jsonAsStr,
          jsonAsObj]
  | null => simp [validToolEntry, Json.isObj] at h
  | bool b => simp [validToolEntry, Json.isObj] at h
  | num n => simp [validToolEntry, Json.isObj] at h
  | str s => simp [validToolEntry, Json.isObj] at h
  | arr xs => simp [validToolEntry, Json.isObj] at h

/-- Mapping the raw `tools` array: when every raw entry is valid, the
`mapM` of the per-entry loop body succeeds and produces the defaulted
schemas. -/
theorem mapM_defaultedSchema (raw : List Json) (h : allValidTools raw = true) :
    raw.mapM rawToToolSchema = Except.ok (raw.map defaultedSchema) := by
  induction raw with
  | nil => rfl
  | cons t raw ih =>
    have h' : validToolEntry t = true ∧ raw.all validToolEntry = true := by
      simpa [allValidTools, Bool.and_eq_true] using h
    rw [List.mapM_cons, rawToToolSchema_valid t h'.1, ih h'.2]
    rfl

/-- The success path of the try-block, fully determined: a spawn that
succeeds, clean drains, an accepted initialize response and a tools/list
step whose read and extraction return without raising produce the healthy
result and the five-effect trace ending in the healthy registry write. -/
theorem check_success_path (reg : Registry) (server_id : String)
    (env_overrides : Option EnvMap) (timeout : ℚ) (ambient : EnvMap) (w : World)
    (entry : MCPServerEntry) (j0 : Json)
    (hreg : reg server_id = some entry) (hs : w.spawnExc = none)
    (hd1 : w.drainInitExc = none)
    (hj : w.initRead = .msg j0) (ht0 : j0.truthy = true)
    (hm0 : Json.mem "result" j0 = .ok true)
    (hd2 : w.drainNotifyExc = none) (hd3 : w.drainListExc = none)
    (tools_resp : Option Json) (tools : List MCPToolSchema)
    (hr : readResponse w.toolsRead = .ok tools_resp)
    (hex : extractTools tools_resp = .ok tools) :
    check_server_health reg server_id env_overrides timeout ambient w =
      ({ server_id := server_id, status := .healthy, tools_count := tools.length,
         tools := tools, response_time_ms := w.elapsedMs },
       [.spawn entry.command entry.args (mergeEnv ambient env_overrides),
        .readCall timeout, .readCall timeout, .kill,
        .updateHealth server_id .healthy (some tools)]) := by
  simp only [readResponse] at hr
  simp [check_server_health, get_server, hreg, checkTry, hs, hd1, hj, readResponse,
        initFailedCheck, ht0, hm0, Except.map, hd2, hd3, hr, hex]


/-- Extraction on a well-formed tools/list response: truthy, `result`
member present mapping to a dict whose `tools` member is an array of valid
entries; the raw entries are mapped to their defaulted schemas. -/
theorem extractTools_result_obj (j res : Json) (raw : List Json)
    (htj : j.truthy = true) (hmj : Json.mem "result" j = .ok true)
    (hsub : Json.subscript j "result" = .ok res)
    (hget : Json.dictGet res "tools" (.arr []) = .ok (.arr raw))
    (hobjs : allValidTools raw = true) :
    extractTools (some j) = .ok (raw.map defaultedSchema) := by
  simp only [extractTools, htj, hmj, hsub, hget, Json.pyIter]
  exact mapM_defaultedSchema raw hobjs

/-- C5 counterexample, refuting both halves of the claim.  First half:
`initialize` succeeds but the `tools/list` response parses to the bare
number `5` — a value with no `result` field — where the claim expects
`status=Healthy` with an empty tool list; line 131's
`"result" in tools_resp` raises `TypeError` on a truthy number, so the run
lands in the exception handler and returns unhealthy.  Second half: a
present tools array whose entry `{"name": 5}` is claimed to map to a
ToolSchema, but the pydantic v2 constructor raises `ValidationError` on
the non-string name, again returning unhealthy instead. -/
theorem tools_number_response_counterexample :
    Json.mem "result" (Json.num 5) = .error .typeError ∧
    wNumTools.toolsRead = LineRead.msg (Json.num 5) ∧
    (check_server_health regEcho "echo-ok" none checkDefaultTimeoutS ambientX
        wNumTools).1.status = .unhealthy ∧
    (check_server_health regEcho "echo-ok" none checkDefaultTimeoutS ambientX
        wNumTools).1.error = some PyExc.typeError.message ∧
    rawToToolSchema (.obj [("name", .num 5)]) = .error .validationError ∧
    (check_server_health regEcho "echo-ok" none checkDefaultTimeoutS ambientX
        wBadName).1.status = .unhealthy ∧
    (check_server_health regEcho "echo-ok" none checkDefaultTimeoutS ambientX
        wBadName).1.error = some PyExc.validationError.message :=
  ⟨rfl, rfl, rfl, rfl, rfl, rfl, rfl⟩

/-- C5 amended: after an accepted initialize response, (1) a `tools/list`
read outcome that is absent (timeout, end-of-stream, JSON parse failure),
falsy, or a value supporting the membership test but lacking a `result`
member yields status healthy with an empty tool list and `tools_count = 0`;
and (2) when the response carries a `result` dict whose `tools` member is
an array of dicts, each raw entry is mapped to a ToolSchema with missing
`name` defaulting to the empty string, missing `description` to the empty
string, and missing `inputSchema` to an empty dict, provided each entry
passes pydantic v2 validation (string name and description, dict
inputSchema, after defaulting).  (A non-UTF-8 line, a truthy response
supporting no membership test, or a tool entry failing validation instead
raises internally and yields unhealthy, as the counterexample shows.) -/
theorem tools_step_best_effort (reg : Registry) (server_id : String)
    (env_overrides : Option EnvMap) (timeout : ℚ) (ambient : EnvMap) (w : World)
    (entry : MCPServerEntry)
    (hreg : reg server_id = some entry) (hs : w.spawnExc = none)
    (hd1 : w.drainInitExc = none)
    (hinit : initStepOk w.initRead = true)
    (hd2 : w.drainNotifyExc = none) (hd3 : w.drainListExc = none) :
    (toolsRespBenign w.toolsRead = true →
      (check_server_health reg server_id env_overrides timeout ambient w).1 =
        { server_id := server_id, status := .healthy, tools_count := 0,
          tools := [], response_time_ms := w.elapsedMs }) ∧
    (∀ j res raw, w.toolsRead = .msg j → j.truthy = true →
      Json.mem "result" j = .ok true →
      Json.subscript j "result" = .ok res →
      Json.dictGet res "tools" (.arr []) = .ok (.arr raw) →
      allValidTools raw = true →
      (check_server_health reg server_id env_overrides timeout ambient w).1 =
        { server_id := server_id, status := .healthy, tools_count := raw.length,
          tools := raw.map defaultedSchema, response_time_ms := w.elapsedMs }) := by
  obtain ⟨j0, hj, ht0, hm0⟩ := initStepOk_inv w.initRead hinit
  constructor
  · intro hben
    cases hev : w.toolsRead with
    | timeout =>
      rw [check_success_path reg server_id env_overrides timeout ambient w
        entry j0 hreg hs hd1 hj ht0 hm0 hd2 hd3 none [] (by rw [hev]; rfl) rfl]
      rfl
    | eof =>
      rw [check_success_path reg server_id env_overrides timeout ambient w
        entry j0 hreg hs hd1 hj ht0 hm0 hd2 hd3 none [] (by rw [hev]; rfl) rfl]
      rfl
    | badJson =>
      rw [check_success_path reg server_id env_overrides timeout ambient w
        entry j0 hreg hs hd1 hj ht0 hm0 hd2 hd3 none [] (by rw [hev]; rfl) rfl]
      rfl
    | nonUtf8 => simp [toolsRespBenign, hev] at hben
    | msg j =>
      rw [hev] at hben
      simp only [toolsRespBenign] at hben
      have hex : extractTools (some j) = .ok [] := by
        cases ht : j.truthy with
        | false => simp [extractTools, ht]
        | true =>
          simp only [ht, Bool.not_true, Bool.false_or] at hben
          cases hm : Json.mem "result" j with
          | error e => simp [hm] at hben
          | ok b =>
            cases b with
            | true => simp [hm] at hben
            | false => simp [extractTools, ht, hm]
      rw [check_success_path reg server_id env_overrides timeout ambient w
        entry j0 hreg hs hd1 hj ht0 hm0 hd2 hd3 (some j) [] (by rw [hev]; rfl) hex]
      rfl
  · intro j res raw hev htj hmj hsub hget hobjs
    rw [check_success_path reg server_id env_overrides timeout ambient w
      entry j0 hreg hs hd1 hj ht0 hm0 hd2 hd3 (some j) (raw.map defaultedSchema)
      (by rw [hev]; rfl)
      (extractTools_result_obj j res raw htj hmj hsub hget hobjs)]
    simp

/-- Witness for the amended C5 at the spec's concrete `echo-ok` scenario:
the `ping` tool entry is mapped into the result with one tool. -/
theorem tools_step_best_effort_witness :
    (check_server_health regEcho "echo-ok" none checkDefaultTimeoutS ambientX
        wHappy).1 =
      { server_id := "echo-ok", status := .healthy, tools_count := 1,
        tools := [defaultedSchema pingToolJson], response_time_ms := 12 } :=
  (tools_step_best_effort regEcho "echo-ok" none checkDefaultTimeoutS ambientX
      wHappy echoEntry rfl rfl rfl rfl rfl rfl).2
    (Json.obj [("jsonrpc", .str "2.0"), ("id", .num 2),
               ("result", .obj [("tools", .arr [pingToolJson])])])
    (Json.obj [("tools", .arr [pingToolJson])]) [pingToolJson]
    rfl rfl rfl rfl rfl rfl

/-- C10: update_server_health overwrites exactly `status` and
`last_health_check`, replaces `tools` only when a tools argument is
supplied (so `tools = none` leaves the previously cached list intact),
leaves every other field of the targeted entry and every other registry
entry unchanged; and every unhealthy `update_server_health` call issued by
check_server_health passes no tools argument. -/
theorem update_health_frame (reg : Registry) (server_id : String)
    (st : MCPServerStatus) (tools : Option (List MCPToolSchema)) (now : ℚ) :
    (∀ i, i ≠ server_id → update_server_health server_id st tools now reg i = reg i) ∧
    (∀ e, reg server_id = some e →
      ∃ e2, update_server_health server_id st tools now reg server_id = some e2 ∧
        e2.status = st ∧ e2.last_health_check = some now ∧
        e2.tools = tools.getD e.tools ∧
        (tools = none → e2.tools = e.tools) ∧
        e2.id = e.id ∧ e2.name = e.name ∧ e2.description = e.description ∧
        e2.category = e.category ∧ e2.command = e.command ∧ e2.args = e.args ∧
        e2.endpoint_url = e.endpoint_url ∧ e2.required_env = e.required_env ∧
        e2.optional_env = e.optional_env ∧ e2.npm_package = e.npm_package ∧
        e2.documentation_url = e.documentation_url ∧ e2.icon = e.icon ∧
        e2.tags = e.tags ∧ e2.is_official = e.is_official) ∧
    (∀ (reg2 : Registry) (sid2 : String) (ov : Option EnvMap) (t : ℚ)
       (amb : EnvMap) (w : World) (sid : String) (ts : Option (List MCPToolSchema)),
      Eff.updateHealth sid .unhealthy ts
        ∈ (check_server_health reg2 sid2 ov t amb w).2 →
      ts = none) := by
  refine ⟨?_, ?_, ?_⟩
  · intro i hi
    cases hsv : reg server_id with
    | none => simp [update_server_health, hsv]
    | some srv => simp [update_server_health, hsv, hi]
  · intro e he
    refine
      ⟨{ e with status := st, tools := tools.getD e.tools, last_health_check := some now },
       ?_, rfl, rfl, rfl, ?_, rfl, rfl, rfl, rfl, rfl, rfl, rfl, rfl, rfl,
       rfl, rfl, rfl, rfl, rfl⟩
    · simp [update_server_health, he]
    · intro h
      subst h
      rfl
  · intro reg2 sid2 ov t amb w sid ts hmem
    cases hreg : reg2 sid2 with
    | none => simp [check_server_health, get_server, hreg] at hmem
    | some entry =>
      rcases checkTry_cases sid2 entry (mergeEnv amb ov) t w with
        ⟨e1, hct⟩ | ⟨e1, hct⟩ | ⟨e1, hct⟩ | ⟨m1, hct⟩ | ⟨e1, hct⟩ | ⟨tools2, hct, hstep⟩ <;>
      simp [check_server_health, get_server, hreg, hct] at hmem <;>
      exact hmem.2

/-- Witness for C10: updating `echo-ok` leaves the unrelated id `other`
untouched. -/
theorem update_health_frame_witness :
    ("other" : String) ≠ "echo-ok" ∧
    update_server_health "echo-ok" MCPServerStatus.unhealthy none 42 regEcho "other"
      = regEcho "other" :=
  ⟨by decide,
   (update_health_frame regEcho "echo-ok" MCPServerStatus.unhealthy none 42).1
     "other" (by decide)⟩
